import Mathlib

/-!
Verification of the hybrid-search subsystem of a Streamlit-in-Snowflake
PDF search application.

The development shallowly embeds the Python code of
`src/services/search_service.py` and `src/utils/vector_utils.py`:

* external state (the `document_metadata` table, the cached document
  contents, the search-history sink, the remote SQL/LLM backends) becomes
  an explicit `Env` record;
* fallible Python code becomes `Except PyErr`;
* Python `dict` records with optional keys become structures with
  `Option` fields;
* Python floats that carry exact rational values are modelled by `ℚ`
  (no rounding is involved in any property proved here), and the IEEE
  outcomes of dividing by zero are modelled explicitly by `PyFloat`.

Each claim theorem is stated over these definitions.
-/

namespace StreamlitSearch

/-- A Python exception class, as observable by a caller of
`SearchService.search`.  The constructors `invalidQueryError` and
`unsupportedSearchTypeError` correspond to exception classes that the
specification names; no such classes are defined anywhere in the
repository, so no definition in this file ever produces them — they
exist only so that the spec's expected outcomes are statable. -/
inductive PyErr where
  /-- e.g. `len(None)`, or an unexpected keyword argument at a call site,
  or iterating over `None`. -/
  | typeError
  /-- attribute lookup of a method that the class does not define. -/
  | attributeError
  /-- an error raised by the Snowflake session while executing SQL
  (here: the `INSERT INTO search_history` statement). -/
  | dbError
  /-- spec-only: malformed query error; not defined in the code. -/
  | invalidQueryError
  /-- spec-only: unrecognized search type error; not defined in the code. -/
  | unsupportedSearchTypeError
  deriving Repr, DecidableEq

/-- One content chunk (`pdf_contents` element): the fields of the dicts
that `_apply_filters` and the single-document search paths read. -/
structure Chunk where
  file_name : String
  page : Int
  text : String
  deriving Repr, DecidableEq

/-- One row of the `document_metadata` table
(see `SearchService._init_tables`).  `tags` is `none` when the column is
SQL NULL. -/
structure DocMeta where
  file_name : String
  upload_date : Int
  file_type : String
  page_count : Int
  tags : Option (List String)
  folder_path : String
  deriving Repr, DecidableEq

/-- The `filters` dict of `SearchService.search`; a `none` field models
an absent key. -/
structure Filters where
  date_range : Option (Int × Int) := none
  file_types : Option (List String) := none
  page_range : Option (Int × Int) := none
  tags : Option (List String) := none
  folders : Option (List String) := none
  file_names : Option (List String) := none
  deriving Repr, DecidableEq

/-- The empty dict `{}` that `search` substitutes for `filters=None`. -/
def Filters.empty : Filters := {}

/-- Python truthiness of the filters dict: `{}` and `None` are falsy,
a dict with at least one key is truthy. -/
def Filters.isTruthy (f : Filters) : Bool :=
  f.date_range.isSome || f.file_types.isSome || f.page_range.isSome ||
  f.tags.isSome || f.folders.isSome || f.file_names.isSome

/-- The `search_options` dict; each `none` field models an absent key. -/
structure SearchOptions where
  search_type : Option String := none
  use_similar_terms : Option Bool := none
  deriving Repr, DecidableEq

/-- `search_options.get("search_type", "hybrid") if search_options else
"hybrid"` (search_service.py line 124). -/
def getSearchType (so : Option SearchOptions) : String :=
  match so with
  | none => "hybrid"
  | some o => o.search_type.getD "hybrid"

/-- The external state a `search` call runs against. -/
structure Env where
  /-- rows of the `document_metadata` table. -/
  metadata : List DocMeta
  /-- what `_get_document_contents` returns: the cached contents list, or
  `none` when the cache is empty and the stubbed `_load_document_contents`
  returns Python `None`. -/
  cached_contents : Option (List Chunk)
  /-- oracle for the value `hybrid_search` would return if its call ever
  bound successfully (it never does: see `search_hybrid_call_kwargs`). -/
  hybridResults : List Chunk
  /-- whether the `INSERT INTO search_history` statement raises. -/
  historyWriteFails : Bool

/-- The dict returned by `SearchService.search` (the fields relevant to
the claims; `total_results` is `len(results)` computed at line 159). -/
structure SearchPayload where
  results : List Chunk
  query : String
  mode : String
  target_document : Option String
  total_results : Nat
  deriving Repr, DecidableEq

/-! ### Keyword-argument binding of the `hybrid_search` call

`vector_utils.hybrid_search` (lines 341–347) declares exactly the
parameters below; `SearchService.search` (lines 129–135) calls it with
the keyword arguments below.  Python raises `TypeError` at the call when
some keyword does not name a parameter. -/

/-- Parameter names of `hybrid_search(query, pdf_contents, top_n,
threshold, use_similar_terms)`. -/
def hybrid_search_params : List String :=
  ["query", "pdf_contents", "top_n", "threshold", "use_similar_terms"]

/-- Keyword arguments of the call at search_service.py lines 129–135. -/
def search_hybrid_call_kwargs : List String :=
  ["query", "pdf_contents", "top_n", "use_similar_terms", "mode"]

/-- A keyword call binds iff every keyword names a declared parameter
(all required positional parameters are supplied by this call, so
binding can only fail on an unexpected keyword). -/
def kwargsBindOk (params kwargs : List String) : Bool :=
  kwargs.all fun k => params.contains k

/-! ### `SearchService._apply_filters` (lines 164–211) -/

/-- Whether a metadata row satisfies the WHERE clauses that
`_apply_filters` builds.  Only `date_range`, `file_types`, `tags` and
`folders` produce clauses; the `file_names` key is never read by
`_apply_filters`.  `ARRAY_INTERSECTION(tags, :tags) IS NOT NULL` is
non-NULL exactly when both array arguments are non-NULL (Snowflake
returns an empty, non-NULL array on empty intersection), so with the
non-NULL bound parameter the clause only tests the column. -/
def metadataClauseOk (f : Filters) (m : DocMeta) : Bool :=
  (match f.date_range with
   | none => true
   | some (s, e) => decide (s ≤ m.upload_date) && decide (m.upload_date ≤ e)) &&
  (match f.file_types with
   | none => true
   | some ts => ts.contains m.file_type) &&
  (match f.tags with
   | none => true
   | some _ => m.tags.isSome) &&
  (match f.folders with
   | none => true
   | some fs => fs.contains m.folder_path)

/-- `SearchService._apply_filters`: compute the file names matching the
metadata WHERE clauses, then keep the cached content chunks whose
`file_name` is among them (and whose page is in `page_range` when that
key is present).  When `_get_document_contents` returns `None` (empty
cache, stubbed loader), the list comprehension iterates over `None` and
raises `TypeError`. -/
def apply_filters (env : Env) (f : Filters) : Except PyErr (List Chunk) :=
  let names := (env.metadata.filter (metadataClauseOk f)).map (·.file_name)
  match env.cached_contents with
  | none => .error .typeError
  | some cs =>
    match f.page_range with
    | some (ps, pe) =>
      .ok (cs.filter fun c =>
        names.contains c.file_name && decide (ps ≤ c.page) && decide (c.page ≤ pe))
    | none => .ok (cs.filter fun c => names.contains c.file_name)

/-! ### `SearchService.search` (lines 71–162) -/

/-- Lines 114–118: if `mode == "single" and target_document:` (Python
truthiness: `None` and `""` are falsy), start from the given filters (or
a fresh `{}`) and set `filters["file_names"] = [target_document]`. -/
def effectiveFilters (mode : String) (target_document : Option String)
    (filters : Option Filters) : Option Filters :=
  match target_document with
  | some d =>
    if mode = "single" ∧ d ≠ "" then
      some { filters.getD Filters.empty with file_names := some [d] }
    else filters
  | none => filters

/-- Line 121: `filtered_contents = self._apply_filters(filters) if
filters else None`. -/
def filtered_contents_step (env : Env) (filters1 : Option Filters) :
    Except PyErr (Option (List Chunk)) :=
  match filters1 with
  | none => .ok none
  | some f =>
    if f.isTruthy then
      match apply_filters env f with
      | .error e => .error e
      | .ok cs => .ok (some cs)
    else .ok none

/-- `SearchService._standard_vector_search` (lines 442–450): the body is
`pass`, so the call returns Python `None`. -/
def standard_vector_search : Option (List Chunk) := none

/-- `SearchService._standard_keyword_search` (lines 452–460): the body is
`pass`, so the call returns Python `None`. -/
def standard_keyword_search : Option (List Chunk) := none

/-- Python truthiness of `contents` in `if not contents:` where contents
is `None` or a list. -/
def contentsFalsy : Option (List Chunk) → Bool
  | none => true
  | some l => l.isEmpty

/-- `SearchService._optimized_single_doc_search` (lines 384–412):
`if not contents: return []`; otherwise the first statement executed is
`self._get_query_embedding(query)`, and `SearchService` defines no
method `_get_query_embedding`, so Python raises `AttributeError`. -/
def optimized_single_doc_search (contents : Option (List Chunk)) :
    Except PyErr (List Chunk) :=
  if contentsFalsy contents then .ok [] else .error .attributeError

/-- `SearchService._optimized_single_doc_keyword_search`
(lines 414–440): `if not contents: return []`; otherwise it calls
`self._extract_keywords(query)`, and `SearchService` defines no method
`_extract_keywords`, so Python raises `AttributeError`. -/
def optimized_single_doc_keyword_search (contents : Option (List Chunk)) :
    Except PyErr (List Chunk) :=
  if contentsFalsy contents then .ok [] else .error .attributeError

/-- `SearchService._vector_search` (lines 352–366). -/
def vector_search_method (contents : Option (List Chunk)) (mode : String) :
    Except PyErr (Option (List Chunk)) :=
  if mode = "single" then
    match optimized_single_doc_search contents with
    | .error e => .error e
    | .ok rs => .ok (some rs)
  else .ok standard_vector_search

/-- `SearchService._keyword_search` (lines 368–382). -/
def keyword_search_method (contents : Option (List Chunk)) (mode : String) :
    Except PyErr (Option (List Chunk)) :=
  if mode = "single" then
    match optimized_single_doc_keyword_search contents with
    | .error e => .error e
    | .ok rs => .ok (some rs)
  else .ok standard_keyword_search

/-- Lines 127–139: dispatch on `search_type`.  `hybrid` calls
`hybrid_search` with the keyword arguments of
`search_hybrid_call_kwargs`; the binding check is Python's, performed
before the callee body runs.  The `else` branch (comment `# keyword`)
receives every `search_type` other than `hybrid` and `vector`. -/
def dispatch (env : Env) (st : String) (contents : Option (List Chunk))
    (mode : String) : Except PyErr (Option (List Chunk)) :=
  if st = "hybrid" then
    if kwargsBindOk hybrid_search_params search_hybrid_call_kwargs then
      .ok (some env.hybridResults)
    else .error .typeError
  else if st = "vector" then vector_search_method contents mode
  else keyword_search_method contents mode

/-- Lines 141–149: when `save_history`, compute
`results_count=len(results)` (a `TypeError` when `results` is `None`)
and run `_save_search_history` (lines 231–266), whose
`session.sql(...).collect()` has no surrounding try/except, so a failure
of the INSERT propagates. -/
def save_history_step (env : Env) (save_history : Bool)
    (results : Option (List Chunk)) : Except PyErr Unit :=
  if save_history then
    match results with
    | none => .error .typeError
    | some _ => if env.historyWriteFails then .error .dbError else .ok ()
  else .ok ()

/-- Lines 141–162: the history step, then the return dict, whose
`"total_results": len(results)` (line 159) raises `TypeError` when
`results` is `None`. -/
def finalize (env : Env) (query mode : String) (target_document : Option String)
    (save_history : Bool) (results : Option (List Chunk)) :
    Except PyErr SearchPayload :=
  match save_history_step env save_history results with
  | .error e => .error e
  | .ok _ =>
    match results with
    | none => .error .typeError
    | some rs =>
      .ok { results := rs, query := query, mode := mode,
            target_document := target_document, total_results := rs.length }

/-- `SearchService.search` (lines 71–162). -/
def search (env : Env) (query mode : String) (target_document : Option String)
    (filters : Option Filters) (search_options : Option SearchOptions)
    (top_n : Nat) (save_history : Bool) : Except PyErr SearchPayload :=
  let _ := top_n
  match filtered_contents_step env (effectiveFilters mode target_document filters) with
  | .error e => .error e
  | .ok contents =>
    match dispatch env (getSearchType search_options) contents mode with
    | .error e => .error e
    | .ok results => finalize env query mode target_document save_history results

/-! ### `vector_utils._merge_search_results` (lines 402–440)

Result dicts carry exact rational scores here (every property proved is
about exact values, clamping and ordering, none about rounding). -/

/-- A search-result dict as seen by `_merge_search_results`: the keys it
reads (`file_name`, `page`) and writes (`normalized_score`), plus the
optional `score` key.  `none` models an absent key. -/
structure SRec where
  file_name : String
  page : Int
  score : Option ℚ
  normalized_score : Option ℚ
  deriving Repr, DecidableEq

/-- The dedup key `(result["file_name"], result["page"])`. -/
def keyOf (r : SRec) : String × Int := (r.file_name, r.page)

/-- `min(1.0, max(0.0, s))` (line 434). -/
def clamp01 (s : ℚ) : ℚ := min 1 (max 0 s)

/-- Lines 433–434: `if "score" in result: result["normalized_score"] =
min(1.0, max(0.0, result["score"]))`; a result without a `score` key is
left unchanged. -/
def normAssign (r : SRec) : SRec :=
  match r.score with
  | some s => { r with normalized_score := some (clamp01 s) }
  | none => r

/-- Lines 425–435: walk the concatenated list keeping the `seen` set of
keys; the first occurrence of each key survives (with its score clamped
into `normalized_score` when present), later duplicates are dropped. -/
def dedupNormalize : List SRec → List (String × Int) → List SRec
  | [], _ => []
  | r :: rest, seen =>
    if keyOf r ∈ seen then dedupNormalize rest seen
    else normAssign r :: dedupNormalize rest (keyOf r :: seen)

/-- The sort key `x.get("normalized_score", 0)` (line 438). -/
def sortKey (r : SRec) : ℚ := r.normalized_score.getD 0

/-- Insert into a descending-sorted list, after every element whose key
is strictly larger and before equal-key elements coming from later in
the original list. -/
def insertDesc (r : SRec) : List SRec → List SRec
  | [] => [r]
  | x :: xs => if sortKey x ≤ sortKey r then r :: x :: xs else x :: insertDesc r xs

/-- Stable descending sort by `sortKey`.  Python's `list.sort(key=...,
reverse=True)` is a stable descending sort; any stable sort with the
same key produces the same list, so this structural insertion sort is
extensionally the source's sort. -/
def stableSortDesc : List SRec → List SRec
  | [] => []
  | r :: rest => insertDesc r (stableSortDesc rest)

/-- `vector_utils._merge_search_results` (lines 402–440): concatenate
vector results before keyword results, dedup by `(file_name, page)`
first-wins while setting `normalized_score`, sort descending by
`normalized_score` (missing key sorts as 0), truncate to `top_n`. -/
def merge_search_results (vector_results keyword_results : List SRec)
    (top_n : Nat) : List SRec :=
  (stableSortDesc (dedupNormalize (vector_results ++ keyword_results) [])).take top_n

/-! ### `vector_utils.generate_similar_terms` (lines 200–252) and
`_expand_query_with_similar_terms` (lines 255–278) -/

/-- Outcome of the `session.cortex.complete` call and the subsequent
`json.loads` of its response:
`failure` — the LLM call raised (the outer `except` branch);
`jsonTerms ts` — the response parsed as JSON and
`result.get("similar_terms", [])` yielded `ts`;
`plainText s` — `json.loads` raised `JSONDecodeError` and the raw
response text `s` goes through the comma-splitting fallback. -/
inductive LLMOutcome where
  | failure
  | jsonTerms (terms : List String)
  | plainText (s : String)
  deriving Repr, DecidableEq

/-- Python `str.lower()`: lower-case every character.  (Extensionally
`String.toLower`, re-stated by structural recursion over the character
list so that concrete instances evaluate.) -/
def pyLower (s : String) : String := String.mk (s.data.map Char.toLower)

/-- `vector_utils.generate_similar_terms` (lines 200–252): on the JSON
path, drop terms case-insensitively equal to the query, then truncate to
`num_terms`; on the fallback path, split the response on commas, strip,
drop empties, drop terms case-insensitively equal to the query, truncate;
on failure return `[]`. -/
def generate_similar_terms (query : String) (num_terms : Nat)
    (llm : LLMOutcome) : List String :=
  match llm with
  | .failure => []
  | .jsonTerms ts =>
    (ts.filter fun t => decide (pyLower t ≠ pyLower query)).take num_terms
  | .plainText s =>
    let terms := (s.splitOn ",").map String.trim
    let terms := terms.filter fun t => decide (t ≠ "")
    (terms.filter fun t => decide (pyLower t ≠ pyLower query)).take num_terms

/-- The `f'"{term}"'` quoting of line 278. -/
def pyQuote (t : String) : String := "\"" ++ t ++ "\""

/-- `vector_utils._expand_query_with_similar_terms` (lines 255–278):
`[query] + similar_terms`, deduplicated via `set(...)` and joined with
`" OR "`.  Python iterates the set in an unspecified order; it is
modelled as first-occurrence-order deduplication (only the singleton
case, where every order agrees, is used by a proved property). -/
def expand_query_with_similar_terms (query : String) (num_terms : Nat)
    (llm : LLMOutcome) : String :=
  let expanded := query :: generate_similar_terms query num_terms llm
  String.intercalate " OR " (expanded.eraseDups.map pyQuote)

/-! ### `vector_utils.calculate_similarity` local fallback
(lines 578–586)

The fallback computes `float(np.dot(v1, v2) / (np.linalg.norm(v1) *
np.linalg.norm(v2)))`.  Over IEEE floats with an exactly-zero
denominator this division does not raise: it yields `nan` when the
numerator is `0.0` and `±inf` otherwise (NumPy emits a warning, not an
exception, so the inner `except` does not fire).  The denominator
`‖v1‖·‖v2‖` is exactly `0.0` iff `‖v1‖² · ‖v2‖² = 0`. -/

/-- Outcome of the NumPy fallback expression.  `fin x s1 s2` stands for
the finite real value `x / (√s1 · √s2)` with `s1·s2 ≠ 0` (kept
symbolically since the square roots are irrational in general). -/
inductive PyFloat where
  | nan
  | inf
  | ninf
  | fin (x s1 s2 : ℚ)
  deriving Repr, DecidableEq

/-- `np.dot` on equal-length rational vectors. -/
def dotProduct : List ℚ → List ℚ → ℚ
  | a :: as, b :: bs => a * b + dotProduct as bs
  | _, _ => 0

/-- The square of `np.linalg.norm v`. -/
def normSq (v : List ℚ) : ℚ := dotProduct v v

/-- The NumPy fallback branch of `vector_utils.calculate_similarity`
(lines 580–584), reached when the remote `VECTOR_COSINE_SIMILARITY`
primitive is unavailable. -/
def calculate_similarity_fallback (v1 v2 : List ℚ) : PyFloat :=
  let d := dotProduct v1 v2
  let s1 := normSq v1
  let s2 := normSq v2
  if s1 * s2 = 0 then
    if d = 0 then .nan else if 0 < d then .inf else .ninf
  else .fin d s1 s2

/-! ### Helper lemmas about `_merge_search_results` -/

theorem keyOf_normAssign (r : SRec) : keyOf (normAssign r) = keyOf r := by
  unfold normAssign; split <;> rfl

theorem score_normAssign (r : SRec) : (normAssign r).score = r.score := by
  unfold normAssign; split <;> simp_all

/-- Every record surviving `dedupNormalize` has a key outside `seen`,
and is the normalisation of the first input record bearing its key. -/
theorem mem_dedupNormalize {l : List SRec} {seen : List (String × Int)} {r : SRec}
    (h : r ∈ dedupNormalize l seen) :
    keyOf r ∉ seen ∧
      (l.find? fun x => decide (keyOf x = keyOf r)).map normAssign = some r := by
  induction l generalizing seen with
  | nil => simp [dedupNormalize] at h
  | cons x rest ih =>
    rw [dedupNormalize] at h
    by_cases hx : keyOf x ∈ seen
    · rw [if_pos hx] at h
      obtain ⟨hns, hfind⟩ := ih h
      refine ⟨hns, ?_⟩
      rw [List.find?_cons_of_neg]
      · exact hfind
      · simp only [decide_eq_true_eq]
        intro hk; exact hns (hk ▸ hx)
    · rw [if_neg hx] at h
      rcases List.mem_cons.mp h with hr | hr
      · subst hr
        refine ⟨by rw [keyOf_normAssign]; exact hx, ?_⟩
        rw [List.find?_cons_of_pos]
        · rfl
        · simp [keyOf_normAssign]
      · obtain ⟨hns, hfind⟩ := ih hr
        have hnx : keyOf r ≠ keyOf x := by
          intro hk; exact hns (by rw [hk]; exact List.mem_cons_self _ _)
        refine ⟨fun hmem => hns (List.mem_cons_of_mem _ hmem), ?_⟩
        rw [List.find?_cons_of_neg]
        · exact hfind
        · simp only [decide_eq_true_eq]
          intro hk; exact hnx hk.symm

/-- `dedupNormalize` output has pairwise-distinct `(file_name, page)`
keys. -/
theorem pairwise_dedupNormalize (l : List SRec) (seen : List (String × Int)) :
    (dedupNormalize l seen).Pairwise fun a b => keyOf a ≠ keyOf b := by
  induction l generalizing seen with
  | nil => simp [dedupNormalize]
  | cons x rest ih =>
    rw [dedupNormalize]
    by_cases hx : keyOf x ∈ seen
    · rw [if_pos hx]; exact ih seen
    · rw [if_neg hx]
      refine List.Pairwise.cons ?_ (ih _)
      intro b hb
      have hb1 := (mem_dedupNormalize hb).1
      rw [keyOf_normAssign]
      intro hk
      exact hb1 (by rw [← hk]; exact List.mem_cons_self _ _)

theorem perm_insertDesc (r : SRec) (l : List SRec) : (insertDesc r l).Perm (r :: l) := by
  induction l with
  | nil => exact List.Perm.refl _
  | cons x xs ih =>
    rw [insertDesc]
    split
    · exact List.Perm.refl _
    · exact (ih.cons x).trans (List.Perm.swap _ _ _)

theorem perm_stableSortDesc (l : List SRec) : (stableSortDesc l).Perm l := by
  induction l with
  | nil => exact List.Perm.refl _
  | cons r rest ih => exact (perm_insertDesc r _).trans (ih.cons r)

/-- Every record in the merged output is the normalisation of the first
record with its key in `vector_results ++ keyword_results`. -/
theorem mem_merge_origin {vr kr : List SRec} {n : Nat} {r : SRec}
    (h : r ∈ merge_search_results vr kr n) :
    ((vr ++ kr).find? fun x => decide (keyOf x = keyOf r)).map normAssign = some r := by
  unfold merge_search_results at h
  have h1 : r ∈ stableSortDesc (dedupNormalize (vr ++ kr) []) := List.mem_of_mem_take h
  have h2 : r ∈ dedupNormalize (vr ++ kr) [] := (perm_stableSortDesc _).mem_iff.mp h1
  exact (mem_dedupNormalize h2).2

/-- Merged output never contains two records with the same key. -/
theorem pairwise_merge (vr kr : List SRec) (n : Nat) :
    (merge_search_results vr kr n).Pairwise fun a b => keyOf a ≠ keyOf b := by
  unfold merge_search_results
  have hp := pairwise_dedupNormalize (vr ++ kr) []
  have hsorted :
      (stableSortDesc (dedupNormalize (vr ++ kr) [])).Pairwise
        fun a b => keyOf a ≠ keyOf b :=
    ((perm_stableSortDesc _).pairwise_iff fun hxy => Ne.symm hxy).mpr hp
  exact hsorted.sublist (List.take_sublist _ _)

/-- Chunk X as the vector search reports it (score 0.9). -/
def chunkX_vector : SRec :=
  { file_name := "doc.pdf", page := 3, score := some (9/10), normalized_score := none }

/-- Chunk X as the keyword search reports it (score 0.7, same key). -/
def chunkX_keyword : SRec :=
  { file_name := "doc.pdf", page := 3, score := some (7/10), normalized_score := none }

/-- The single surviving record of the scenario merge: the vector-origin
record with its own score clamped. -/
def chunkX_merged : SRec :=
  { file_name := "doc.pdf", page := 3, score := some (9/10), normalized_score := some (9/10) }

/-- Concrete evaluation of the spec scenario: vector hit 0.9 and keyword
hit 0.7 on the same `(file_name, page)` merge to the single
vector-origin record with score 0.9. -/
theorem merge_scenario_eval :
    merge_search_results [chunkX_vector] [chunkX_keyword] 5 = [chunkX_merged] := by
  simp [merge_search_results, dedupNormalize, stableSortDesc, insertDesc, normAssign,
    keyOf, clamp01, chunkX_vector, chunkX_keyword, chunkX_merged]
  norm_num

/-! ### Claims C6–C9 -/

/-- C6: merge concatenates vector results before keyword results and
deduplicates by `(file_name, page)` with the first occurrence winning:
no two distinct output results share a key, every output result is the
(normalised) first input record bearing its key, and in the concrete
scenario where the vector search scores chunk X at 0.9 and the keyword
search scores the same chunk at 0.7, the merged output keeps X once
with the vector-origin score 0.9. -/
theorem C6_merge_dedup_first_wins :
    (∀ (vr kr : List SRec) (n : Nat),
        (merge_search_results vr kr n).Pairwise fun a b => keyOf a ≠ keyOf b)
    ∧ (∀ (vr kr : List SRec) (n : Nat) (r : SRec),
        r ∈ merge_search_results vr kr n →
        ((vr ++ kr).find? fun x => decide (keyOf x = keyOf r)).map normAssign = some r)
    ∧ merge_search_results [chunkX_vector] [chunkX_keyword] 5 = [chunkX_merged] :=
  ⟨pairwise_merge, fun _ _ _ _ h => mem_merge_origin h, merge_scenario_eval⟩

/-- Witness for C6 at the concrete scenario input: the surviving record
is the normalisation of the first record with its key in the
concatenation, i.e. the vector-origin record. -/
theorem C6_merge_dedup_first_wins_witness :
    (([chunkX_vector] ++ [chunkX_keyword]).find?
        fun x => decide (keyOf x = keyOf chunkX_merged)).map normAssign
      = some chunkX_merged :=
  C6_merge_dedup_first_wins.2.1 [chunkX_vector] [chunkX_keyword] 5 chunkX_merged
    (by rw [merge_scenario_eval]; exact List.mem_singleton_self _)

/-- C7 counterexample: a result whose input record lacks a `score` key
survives the merge with no `normalized_score` assigned at all (the
claim asserts every surviving result gets `normalized_score` =
`clamp(score, 0.0, 1.0)` in `[0, 1]`, including score-less records). -/
theorem C7_counterexample_scoreless_record :
    merge_search_results
        [{ file_name := "a.pdf", page := 1, score := none, normalized_score := none }] [] 5
      = [{ file_name := "a.pdf", page := 1, score := none, normalized_score := none }]
    ∧ ({ file_name := "a.pdf", page := 1, score := none,
         normalized_score := none : SRec }).normalized_score = none := by
  constructor
  · simp [merge_search_results, dedupNormalize, stableSortDesc, insertDesc, normAssign, keyOf]
  · rfl

/-- C7 (amended): every surviving result that has a `score` field is
assigned `normalized_score = clamp(score, 0.0, 1.0)`, which lies in
`[0, 1]`; results without a `score` field are left unchanged (no
`normalized_score` is assigned to them). -/
theorem C7_normalized_score_clamped :
    ∀ (vr kr : List SRec) (n : Nat) (r : SRec) (s : ℚ),
      r ∈ merge_search_results vr kr n → r.score = some s →
      r.normalized_score = some (clamp01 s) ∧ 0 ≤ clamp01 s ∧ clamp01 s ≤ 1 := by
  intro vr kr n r s hmem hscore
  have hfind := mem_merge_origin hmem
  rcases hmap : (vr ++ kr).find? fun x => decide (keyOf x = keyOf r) with _ | x
  · rw [hmap] at hfind; simp at hfind
  · rw [hmap] at hfind
    have hr : normAssign x = r := by
      simpa using hfind
    have hxscore : x.score = some s := by
      rw [← score_normAssign x, hr, hscore]
    refine ⟨?_, le_min zero_le_one (le_max_left 0 s), min_le_left 1 _⟩
    rw [← hr]
    unfold normAssign
    rw [hxscore]

/-- Witness for C7 (amended) at the concrete scenario input. -/
theorem C7_normalized_score_clamped_witness :
    chunkX_merged.normalized_score = some (clamp01 (9/10))
    ∧ 0 ≤ clamp01 (9/10) ∧ clamp01 (9/10) ≤ 1 :=
  C7_normalized_score_clamped [chunkX_vector] [chunkX_keyword] 5 chunkX_merged (9/10)
    (by rw [merge_scenario_eval]; exact List.mem_singleton_self _) rfl

/-- C8: the local NumPy fallback of `calculate_similarity`, evaluated at
the zero-norm pair `v1 = [0.0]`, `v2 = [1.0]`: the IEEE division
`0.0 / (0.0 * 1.0)` yields `nan` — not the `0.0` the specification
requires (the `except` clause does not fire, since NumPy division by
zero warns instead of raising). -/
theorem C8_zero_norm_fallback_yields_nan :
    calculate_similarity_fallback [0] [1] = PyFloat.nan := by
  simp [calculate_similarity_fallback, dotProduct, normSq]

/-- C9: synonym expansion returns at most `num_terms` terms, never a
term case-insensitively equal to the original query (in particular
never the query itself), and on LLM failure the expanded query is the
quoted original query alone. -/
theorem C9_similar_terms_bounded_and_failsafe :
    ∀ (q : String) (n : Nat) (llm : LLMOutcome),
      (generate_similar_terms q n llm).length ≤ n
      ∧ (∀ t ∈ generate_similar_terms q n llm, pyLower t ≠ pyLower q ∧ t ≠ q)
      ∧ (llm = .failure → expand_query_with_similar_terms q n llm = pyQuote q) := by
  intro q n llm
  refine ⟨?_, ?_, ?_⟩
  · cases llm <;> simp [generate_similar_terms]
  · intro t ht
    have hlt : pyLower t ≠ pyLower q := by
      cases llm with
      | failure => simp [generate_similar_terms] at ht
      | jsonTerms ts =>
        have := List.mem_of_mem_take (l := ts.filter fun t => decide (pyLower t ≠ pyLower q))
          (by simpa [generate_similar_terms] using ht)
        simpa using (List.mem_filter.mp this).2
      | plainText s =>
        have := List.mem_of_mem_take
          (by simpa [generate_similar_terms] using ht)
        have h2 := (List.mem_filter.mp this).2
        simp at h2
        exact h2.1
    exact ⟨hlt, fun he => hlt (he ▸ rfl)⟩
  · intro hf; subst hf; rfl

/-- Witness for C9: a JSON expansion containing "abc" for query "q"
keeps "abc" (case-insensitively distinct from the query), and a failed
expansion of "q" degrades to the quoted query alone. -/
theorem C9_similar_terms_bounded_and_failsafe_witness :
    (pyLower "abc" ≠ pyLower "q" ∧ "abc" ≠ "q")
    ∧ expand_query_with_similar_terms "q" 3 .failure = pyQuote "q" :=
  ⟨(C9_similar_terms_bounded_and_failsafe "q" 3 (.jsonTerms ["abc"])).2.1 "abc" (by decide),
   (C9_similar_terms_bounded_and_failsafe "q" 3 .failure).2.2 rfl⟩

/-! ### Helper lemmas about the `search` pipeline -/

/-- `_apply_filters` either raises the iterating-over-`None` `TypeError`
or returns a list. -/
theorem apply_filters_shape (env : Env) (f : Filters) :
    apply_filters env f = .error PyErr.typeError ∨
      ∃ cs, apply_filters env f = .ok cs := by
  unfold apply_filters
  rcases env.cached_contents with _ | cs
  · left; rfl
  · rcases hpr : f.page_range with _ | ⟨ps, pe⟩ <;> simp [hpr]

/-- The filter step either raises `TypeError` or yields contents. -/
theorem filtered_contents_step_shape (env : Env) (f1 : Option Filters) :
    filtered_contents_step env f1 = .error PyErr.typeError ∨
      ∃ fc, filtered_contents_step env f1 = .ok fc := by
  rcases f1 with _ | f
  · right; exact ⟨none, rfl⟩
  · by_cases ht : f.isTruthy
    · rcases apply_filters_shape env f with h | ⟨cs, h⟩
      · left; simp [filtered_contents_step, ht, h]
      · right; exact ⟨some cs, by simp [filtered_contents_step, ht, h]⟩
    · right; exact ⟨none, by simp [filtered_contents_step, ht]⟩

/-- A baseline environment: no metadata rows, an empty cached contents
list, a healthy history sink. -/
def env0 : Env :=
  { metadata := [], cached_contents := some [], hybridResults := [],
    historyWriteFails := false }

/-- An environment whose `INSERT INTO search_history` raises. -/
def envHistFail : Env :=
  { metadata := [], cached_contents := some [], hybridResults := [],
    historyWriteFails := true }

/-- `search_options` selecting the vector path. -/
def vecOpts : Option SearchOptions :=
  some { search_type := some "vector", use_similar_terms := none }

/-! ### Claims C1–C5 and C10 -/

/-- Metadata row for document `a.pdf`. -/
def metaA : DocMeta :=
  { file_name := "a.pdf", upload_date := 0, file_type := "pdf", page_count := 1,
    tags := none, folder_path := "/" }

/-- Metadata row for document `b.pdf`. -/
def metaB : DocMeta :=
  { file_name := "b.pdf", upload_date := 0, file_type := "pdf", page_count := 1,
    tags := none, folder_path := "/" }

/-- A content chunk belonging to `b.pdf`. -/
def chunkB : Chunk := { file_name := "b.pdf", page := 1, text := "payment terms" }

/-- Environment for C1: two documents in the metadata table, one cached
chunk belonging to `b.pdf`. -/
def envC1 : Env :=
  { metadata := [metaA, metaB], cached_contents := some [chunkB],
    hybridResults := [], historyWriteFails := false }

/-- The effective filter that `search` builds at line 118 for a
single-mode query against `a.pdf` with no user filter. -/
def singleFilterA : Filters := { file_names := some ["a.pdf"] }

/-- C1: `search` with mode `single` and target `a.pdf` records
`file_names = ["a.pdf"]` in the effective filter, but `_apply_filters`
never reads the `file_names` key, so the chunk of `b.pdf` passes the
filter step and flows into the single-document search: the claimed
enforcement (`file_name` constrained to exactly the target) does not
happen. -/
theorem C1_single_mode_file_names_ignored :
    effectiveFilters "single" (some "a.pdf") none = some singleFilterA
    ∧ apply_filters envC1 singleFilterA = .ok [chunkB]
    ∧ (chunkB.file_name == "a.pdf") = false := by
  refine ⟨rfl, rfl, by decide⟩

/-- C2: whenever the effective `search_type` is `"hybrid"` (in
particular by default, with no search options), `search` raises
`TypeError` and never produces a result list: the call to
`hybrid_search` passes the keyword argument `mode`, which is not among
`hybrid_search`'s parameters. -/
theorem C2_hybrid_dispatch_raises_type_error :
    ∀ (env : Env) (q mode : String) (td : Option String) (f : Option Filters)
      (so : Option SearchOptions) (n : Nat) (sh : Bool),
      getSearchType so = "hybrid" →
      search env q mode td f so n sh = .error PyErr.typeError := by
  intro env q mode td f so n sh hst
  unfold search
  rcases filtered_contents_step_shape env (effectiveFilters mode td f) with h | ⟨fc, h⟩ <;>
    rw [h]
  dsimp only
  rw [hst]
  have hd : dispatch env "hybrid" fc mode = .error PyErr.typeError := rfl
  rw [hd]

/-- Witness for C2: a call with no search options at all (the default)
raises `TypeError`. -/
theorem C2_hybrid_dispatch_raises_type_error_witness :
    getSearchType none = "hybrid"
    ∧ search env0 "q" "all" none none none 5 true = .error PyErr.typeError :=
  ⟨rfl, C2_hybrid_dispatch_raises_type_error env0 "q" "all" none none none 5 true rfl⟩

/-- C3 counterexample: a `single`-mode search with no `target_document`
(vector path, no filters) proceeds and returns an empty result payload —
no `InvalidQueryError` is raised (the code defines no validation and no
such exception class exists in the repository). -/
theorem C3_counterexample_no_validation :
    search env0 "q" "single" none none vecOpts 5 false =
      .ok { results := [], query := "q", mode := "single",
            target_document := none, total_results := 0 } :=
  rfl

/-- C3 (amended): `single` mode without a target document is not
validated: the search proceeds with no file-name constraint, and with
`search_type = "vector"` and no filters it returns an empty result
payload, in every environment. -/
theorem C3_single_without_target_proceeds :
    ∀ (env : Env) (q : String) (n : Nat),
      search env q "single" none none vecOpts n false =
        .ok { results := [], query := q, mode := "single",
              target_document := none, total_results := 0 } := by
  intro env q n
  rfl

/-- C4 counterexample: an unrecognized `search_type` (here
`"fulltext"`) is not rejected: the call is dispatched to the keyword
path, whose `mode = "all"` helper is a stub returning `None`, so the
search ends in `TypeError` — not in `UnsupportedSearchTypeError`
(no such exception class exists in the repository). -/
theorem C4_counterexample_unrecognized_type :
    search env0 "q" "all" none none
        (some { search_type := some "fulltext", use_similar_terms := none }) 5 false
      = .error PyErr.typeError :=
  rfl

/-- C4 (amended): any `search_type` other than `"hybrid"` and
`"vector"` falls into the `else  # keyword` branch: the search behaves
exactly as with `search_type = "keyword"`. -/
theorem C4_unrecognized_type_goes_to_keyword :
    ∀ (env : Env) (q mode : String) (td : Option String) (f : Option Filters)
      (so : Option SearchOptions) (n : Nat) (sh : Bool),
      getSearchType so ≠ "hybrid" → getSearchType so ≠ "vector" →
      search env q mode td f so n sh =
        search env q mode td f
          (some { search_type := some "keyword", use_similar_terms := none }) n sh := by
  intro env q mode td f so n sh h1 h2
  unfold search
  rcases filtered_contents_step_shape env (effectiveFilters mode td f) with h | ⟨fc, h⟩ <;>
    rw [h]
  dsimp only
  have hd : dispatch env (getSearchType so) fc mode =
      dispatch env (getSearchType
        (some { search_type := some "keyword", use_similar_terms := none })) fc mode := by
    show dispatch env (getSearchType so) fc mode = dispatch env "keyword" fc mode
    unfold dispatch
    rw [if_neg h1, if_neg h2]
    rfl
  rw [hd]

/-- Witness for C4 (amended) at the concrete unrecognized type
`"fulltext"`. -/
theorem C4_unrecognized_type_goes_to_keyword_witness :
    search env0 "q" "all" none none
        (some { search_type := some "fulltext", use_similar_terms := none }) 5 false
      = search env0 "q" "all" none none
          (some { search_type := some "keyword", use_similar_terms := none }) 5 false :=
  C4_unrecognized_type_goes_to_keyword env0 "q" "all" none none
    (some { search_type := some "fulltext", use_similar_terms := none }) 5 false
    (by decide) (by decide)

/-- C5 counterexample: with history saving enabled and a failing
history INSERT, the search raises the database error instead of
returning its (empty) result list: nothing in `search` or
`_save_search_history` catches the failure. -/
theorem C5_counterexample_history_failure_surfaces :
    search envHistFail "q" "single" none none vecOpts 5 true = .error PyErr.dbError :=
  rfl

/-- C5 (amended): a failure of the history-record step propagates to
the caller — the search raises the history sink's error rather than
returning its result list. -/
theorem C5_history_failure_propagates :
    ∀ (env : Env) (q : String) (n : Nat),
      env.historyWriteFails = true →
      search env q "single" none none vecOpts n true = .error PyErr.dbError := by
  intro env q n hfail
  rcases env with ⟨md, cc, hr, hwf⟩
  cases hwf
  · exact absurd hfail (by simp)
  · rfl

/-- Witness for C5 (amended). -/
theorem C5_history_failure_propagates_witness :
    envHistFail.historyWriteFails = true
    ∧ search envHistFail "q" "single" none none vecOpts 5 true = .error PyErr.dbError :=
  ⟨rfl, C5_history_failure_propagates envHistFail "q" 5 rfl⟩

/-- C10 counterexample: with `save_history = False` the claim predicts
a returned payload whose results field is `None`; instead the search
still raises `TypeError`, because line 159 computes
`len(results)` for the metadata dict. -/
theorem C10_counterexample_no_payload :
    search env0 "q" "all" none none vecOpts 5 false = .error PyErr.typeError :=
  rfl

/-- C10 (amended): for mode `"all"` with `search_type` `"vector"` or
`"keyword"`, the standard search helpers are stubs returning `None`,
and the search always raises `TypeError` on `len(results)` — at the
history step when `save_history` is true, at the metadata
`total_results` computation otherwise; it never returns a payload. -/
theorem C10_stub_paths_raise_type_error :
    ∀ (env : Env) (q : String) (td : Option String) (f : Option Filters)
      (so : Option SearchOptions) (n : Nat) (sh : Bool),
      getSearchType so = "vector" ∨ getSearchType so = "keyword" →
      search env q "all" td f so n sh = .error PyErr.typeError := by
  intro env q td f so n sh hst
  unfold search
  rcases filtered_contents_step_shape env (effectiveFilters "all" td f) with h | ⟨fc, h⟩ <;>
    rw [h]
  dsimp only
  have hd : dispatch env (getSearchType so) fc "all" = .ok none := by
    rcases hst with h1 | h1 <;> rw [h1] <;> rfl
  rw [hd]
  cases sh <;> rfl

/-- Witness for C10 (amended): the default `save_history = True` call
on the vector path. -/
theorem C10_stub_paths_raise_type_error_witness :
    (getSearchType vecOpts = "vector" ∨ getSearchType vecOpts = "keyword")
    ∧ search env0 "q" "all" none none vecOpts 5 true = .error PyErr.typeError :=
  ⟨Or.inl rfl,
   C10_stub_paths_raise_type_error env0 "q" none none vecOpts 5 true (Or.inl rfl)⟩

end StreamlitSearch
